import Mathlib

/-!
Verification of the member account-settings flows of the fitgym-pro
dashboard (frontend component `MemberSettings.tsx`).

The logic of the component is pure branching over strings plus calls to an
external auth/database SDK.  We embed it shallowly:

* JavaScript strings become Lean `String`s (lists of characters);
* the three regular expressions in the file (`^\d+@gmail\.com$`,
  `^(\d+)@gmail\.com$` and the email-format regex
  `^[a-zA-Z0-9._%+-]+@[a-zA-Z0-9.-]+\.[a-zA-Z]{2,}$`) are modelled by
  executable matchers over `List Char`;
* the outcomes of the external SDK calls (`db.members.update`,
  `auth.updateEmail`, `supabase.auth.resetPasswordForEmail`,
  `auth.resetPassword`) are an explicit environment, and a handler run
  is a pure function from its inputs and that environment to the list
  of SDK calls issued, the toasts shown, and the state setters invoked.
-/

/-- Prefix test: `listStarts hay needle` holds when `needle` is a prefix of `hay`
(JS `String.prototype.startsWith` / an anchored `^pat` regex test). -/
def listStarts : List Char → List Char → Bool
  | _, [] => true
  | [], _ :: _ => false
  | a :: as, b :: bs => a == b && listStarts as bs

/-- Substring test: `listContains hay needle` holds when `needle` occurs as a contiguous substring of
`hay` (JS `String.prototype.includes` / an unanchored regex test). -/
def listContains : List Char → List Char → Bool
  | [], needle => needle.isEmpty
  | a :: as, needle => listStarts (a :: as) needle || listContains as needle

/-- JS `hay.includes(needle)` on strings. -/
def strContains (hay needle : String) : Bool :=
  listContains hay.data needle.data

/-- JS `hay.startsWith(needle)` (used to model the anchored patterns
`/^test@/`, `/^fake@/`, `/^temp@/`). -/
def strStarts (hay needle : String) : Bool :=
  listStarts hay.data needle.data

/-- Split a character list at its maximal leading run of decimal digits:
returns `(digits, rest)` with the list equal to `digits ++ rest`.  This is
how the anchored greedy `\d+` of `/^\d+@gmail\.com$/` consumes input. -/
def leadingDigits : List Char → List Char × List Char
  | [] => ([], [])
  | c :: cs =>
    if c.isDigit then
      ((leadingDigits cs).1.cons c, (leadingDigits cs).2)
    else ([], c :: cs)

/-- Function `isTemporaryEmail` from `MemberSettings.tsx`:
`/^\d+@gmail\.com$/.test(email)` — one or more digits followed exactly by
`@gmail.com`. -/
def isTemporaryEmail (email : String) : Bool :=
  !(leadingDigits email.data).1.isEmpty &&
    (leadingDigits email.data).2 == "@gmail.com".data

/-- Function `extractMemberIdFromTempEmail` from `MemberSettings.tsx`:
`email.match(/^(\d+)@gmail\.com$/)` returns the captured digit group, or
`null` when the regex does not match. -/
def extractMemberIdFromTempEmail (email : String) : Option String :=
  if !(leadingDigits email.data).1.isEmpty &&
      (leadingDigits email.data).2 == "@gmail.com".data then
    some (String.mk (leadingDigits email.data).1)
  else
    none

/-- Character class `[a-zA-Z]` of the email regex. -/
def isAsciiLetter (c : Char) : Bool :=
  ('a' ≤ c && c ≤ 'z') || ('A' ≤ c && c ≤ 'Z')

/-- Character class `[a-zA-Z0-9._%+-]` (local part of the email regex). -/
def isLocalChar (c : Char) : Bool :=
  isAsciiLetter c || c.isDigit || c == '.' || c == '_' || c == '%' ||
    c == '+' || c == '-'

/-- Character class `[a-zA-Z0-9.-]` (domain part of the email regex). -/
def isDomainChar (c : Char) : Bool :=
  isAsciiLetter c || c.isDigit || c == '.' || c == '-'

/-- Split a character list at its first occurrence of `c`:
`splitAtChar c l = some (before, after)` with `l = before ++ c :: after`
and `c ∉ before`; `none` when `c` does not occur. -/
def splitAtChar (c : Char) : List Char → Option (List Char × List Char)
  | [] => none
  | x :: xs =>
    if x == c then some ([], xs)
    else
      match splitAtChar c xs with
      | some p => some (p.1.cons x, p.2)
      | none => none

/-- Split a character list at its last dot:
`splitAtLastDot l = some (before, after)` with `l` equal to `before`, then
a dot, then `after`, and no dot in `after`; `none` when no dot occurs. -/
def splitAtLastDot : List Char → Option (List Char × List Char)
  | [] => none
  | c :: cs =>
    match splitAtLastDot cs with
    | some p => some (p.1.cons c, p.2)
    | none => if c == '.' then some ([], cs) else none

/-- Full anchored match of `[a-zA-Z0-9.-]+\.[a-zA-Z]{2,}$` against the part
after the at-sign.  Because the `[a-zA-Z]{2,}$` tail admits no dot, the dot
the regex commits to (after backtracking) is necessarily the last dot of
the input; the matcher therefore splits there. -/
def matchDomainTld (r : List Char) : Bool :=
  match splitAtLastDot r with
  | some p =>
      !p.1.isEmpty && p.1.all isDomainChar && p.2.all isAsciiLetter &&
        decide (2 ≤ p.2.length)
  | none => false

/-- The email-format test
`/^[a-zA-Z0-9._%+-]+@[a-zA-Z0-9.-]+\.[a-zA-Z]{2,}$/.test(s)` used both by
`validateEmailFormat` and by `handleEmailUpdate`.  No character class of
the regex contains the at-sign, so a match puts the unique at-sign of the string
at the boundary between the local part and the domain part; the matcher
splits at the first at-sign accordingly. -/
def testEmailRegex (s : String) : Bool :=
  match splitAtChar '@' s.data with
  | some p => !p.1.isEmpty && p.1.all isLocalChar && matchDomainTld p.2
  | none => false

/-- JS `String.prototype.toLowerCase` restricted to ASCII (the only
characters the email regex lets through): uppercase ASCII letters map to
their lowercase counterparts, everything else is unchanged. -/
def toLowerStr (s : String) : String :=
  String.mk (s.data.map Char.toLower)

/-- The `{isValid, message}` record held in the `emailValidation` state. -/
structure EmailValidation where
  isValid : Bool
  message : String
deriving DecidableEq, Repr

/-- Function `validateEmailFormat` from `MemberSettings.tsx`, as the value it stores
into `emailValidation` (`none` models `setEmailValidation(null)`).  The
obviously-fake patterns are tested against `email.toLowerCase()` in source
order, first match wins. -/
def validateEmailFormat (email : String) : Option EmailValidation :=
  if email = "" then none
  else if testEmailRegex email = false then
    some ⟨false, "Invalid email format"⟩
  else
    let lower := toLowerStr email
    if strStarts lower "test@" then
      some ⟨false, "Please use your real email address"⟩
    else if strStarts lower "fake@" then
      some ⟨false, "Please use your real email address"⟩
    else if strStarts lower "temp@" then
      some ⟨false, "Please use your real email address"⟩
    else if strContains lower "@test." then
      some ⟨false, "Please use a real domain"⟩
    else if strContains lower "@fake." then
      some ⟨false, "Please use a real domain"⟩
    else if strContains lower "@example." then
      some ⟨false, "Please use a real domain"⟩
    else
      some ⟨true, "Valid email format"⟩

/-- The `disabled` expression of the update button:
`emailUpdateLoading || !newEmail || emailValidation?.isValid === false`. -/
def updateButtonDisabled (loading : Bool) (newEmail : String)
    (validation : Option EmailValidation) : Bool :=
  loading || newEmail == "" ||
    (match validation with
     | some v => !v.isValid
     | none => false)

/-- Outcome of one external SDK call: success, or a rejection/thrown error
carrying `error.message` (the empty string models a missing or empty
message, which behaves identically in every `error.message?.includes`
test and in the `else if (error.message)` truthiness test). -/
inductive CallResult where
  | ok : CallResult
  | err : String → CallResult
deriving DecidableEq, Repr

/-- The environment of a handler run: the outcome each external SDK call
would produce if issued. -/
structure Env where
  dbUpdate : CallResult
  authUpdateEmail : CallResult
  resetForEmail : CallResult
  resetPassword : CallResult
deriving DecidableEq, Repr

/-- An external SDK call issued by a handler, with its argument(s). -/
inductive Call where
  | dbMembersUpdate : String → String → Call
  | authUpdateEmail : String → Call
  | resetPasswordForEmail : String → Call
  | authResetPassword : String → Call
deriving DecidableEq, Repr

/-- A toast shown via `toast({...})`; `destructive` records
`variant: "destructive"`. -/
structure Toast where
  title : String
  description : String
  destructive : Bool
deriving DecidableEq, Repr

/-- Observable outcome of one handler run: the SDK calls issued in order,
the toasts shown in order, and the successive values passed to
`setEmailUpdateStatus`, `setNewEmail` and `setUpdatedEmail`. -/
structure RunResult where
  calls : List Call
  toasts : List Toast
  statusSet : List String
  newEmailSet : List String
  updatedEmailSet : List String
deriving DecidableEq, Repr

/-- The error-message cascade of the catch block of `handleEmailUpdate` for
a member whose current email is temporary (lines 209–217). -/
def tempErrMessage (msg : String) : String :=
  if strContains msg "extract member ID" then
    "Could not process temporary email. Please contact support."
  else if strContains msg "database" then
    "Database update failed. Please contact support."
  else if strContains msg "already exists" || strContains msg "taken" then
    "This email address is already in use. Please choose a different email."
  else
    "Failed to update temporary email. Please contact support if the issue persists."

/-- The error-message cascade of the catch block of `handleEmailUpdate` for
a member whose current email is not temporary (lines 220–230), starting from
the default `"Failed to update email. Please try again."`. -/
def regularErrMessage (msg : String) : String :=
  if strContains msg "invalid" then
    "The email address format is not accepted. Please use a different email address."
  else if strContains msg "already exists" || strContains msg "taken" then
    "This email address is already in use. Please choose a different email."
  else if strContains msg "rate limit" then
    "Too many requests. Please wait a few minutes before trying again."
  else if strContains msg "network" || strContains msg "connection" then
    "Network error. Please check your connection and try again."
  else if msg ≠ "" then msg
  else "Failed to update email. Please try again."

/-- Function `handleEmailUpdate` from `MemberSettings.tsx` as a pure function of the
current email of the member, the member id, the typed new email, and the
environment of SDK outcomes.

Path structure, mirroring the source:
* empty or unchanged `newEmail`: destructive toast, immediate return;
* `newEmail` failing the email regex: destructive toast, immediate return;
* temporary current email: extract the id from it (a failure would throw
  `Could not extract member ID from temporary email`); call
  `db.members.update(member.id, {email: newEmail})`; any failure there is
  re-thrown from the inner catch as
  `Failed to update email in database`; on success call
  `supabase.auth.resetPasswordForEmail(newEmail)` whose outcome is only
  logged, then set status `pending`, store the updated email, toast
  success, and clear the input;
* non-temporary current email: call `auth.updateEmail(newEmail)`; on error
  throw it; on success set status `pending`, toast, and clear the input;
* the catch block sets status `error` and toasts the message produced by
  `tempErrMessage` or `regularErrMessage` applied to the thrown
  `error.message`. -/
def handleEmailUpdate (memberEmail memberId newEmail : String)
    (env : Env) : RunResult :=
  if newEmail = "" ∨ newEmail = memberEmail then
    ⟨[], [⟨"Error", "Please enter a new email address", true⟩], [], [], []⟩
  else if testEmailRegex newEmail = false then
    ⟨[], [⟨"Error", "Please enter a valid email address", true⟩], [], [], []⟩
  else if isTemporaryEmail memberEmail then
    match extractMemberIdFromTempEmail memberEmail with
    | none =>
        ⟨[],
         [⟨"Error",
           tempErrMessage "Could not extract member ID from temporary email",
           true⟩],
         ["idle", "error"], [], []⟩
    | some _ =>
        match env.dbUpdate with
        | CallResult.err _ =>
            ⟨[Call.dbMembersUpdate memberId newEmail],
             [⟨"Error", tempErrMessage "Failed to update email in database",
               true⟩],
             ["idle", "error"], [], []⟩
        | CallResult.ok =>
            ⟨[Call.dbMembersUpdate memberId newEmail,
              Call.resetPasswordForEmail newEmail],
             [⟨"Email Updated Successfully",
               "Your email has been updated to " ++ newEmail ++
                 ". A password setup email has been sent to your new address. Please check your inbox and follow the instructions to complete the setup.",
               false⟩],
             ["idle", "pending"], [""], [newEmail]⟩
  else
    match env.authUpdateEmail with
    | CallResult.err msg =>
        ⟨[Call.authUpdateEmail newEmail],
         [⟨"Error", regularErrMessage msg, true⟩],
         ["idle", "error"], [], []⟩
    | CallResult.ok =>
        ⟨[Call.authUpdateEmail newEmail],
         [⟨"Verification Email Sent",
           "A verification email has been sent to " ++ newEmail ++
             ". Please check your inbox and click the verification link to confirm your new email address.",
           false⟩],
         ["idle", "pending"], [""], []⟩

/-- The error-message cascade of the catch block of `handlePasswordReset`
(lines 273–279), starting from the default
`"Failed to send password reset email. Please try again."`. -/
def resetErrMessage (msg : String) : String :=
  if strContains msg "rate limit" then
    "Too many requests. Please wait a few minutes before trying again."
  else if strContains msg "not found" || strContains msg "invalid" then
    "Email address not found. Please contact support."
  else if msg ≠ "" then msg
  else "Failed to send password reset email. Please try again."

/-- Function `handlePasswordReset` from `MemberSettings.tsx` as a pure function of
the current email of the member and the environment: an empty email goes
to a destructive toast with no SDK call; otherwise `auth.resetPassword` is
called and its outcome toasted. -/
def handlePasswordReset (memberEmail : String) (env : Env) : RunResult :=
  if memberEmail = "" then
    ⟨[], [⟨"Error", "No email address found for your account", true⟩],
     [], [], []⟩
  else
    match env.resetPassword with
    | CallResult.ok =>
        ⟨[Call.authResetPassword memberEmail],
         [⟨"Password Reset Email Sent",
           "A password reset email has been sent to " ++ memberEmail ++
             ". Please check your inbox and follow the instructions to reset your password.",
           false⟩],
         [], [], []⟩
    | CallResult.err msg =>
        ⟨[Call.authResetPassword memberEmail],
         [⟨"Error", resetErrMessage msg, true⟩],
         [], [], []⟩

/-! ### Helper lemmas -/

theorem leadingDigits_append (l : List Char) :
    (leadingDigits l).1 ++ (leadingDigits l).2 = l := by
  induction l with
  | nil => rfl
  | cons c cs ih =>
      by_cases hc : c.isDigit = true
      · simp [leadingDigits, hc, ih]
      · simp [leadingDigits, hc]

theorem leadingDigits_digits (l : List Char) :
    ∀ c ∈ (leadingDigits l).1, c.isDigit = true := by
  induction l with
  | nil => intro c hc; simp [leadingDigits] at hc
  | cons a as ih =>
      intro c hc
      by_cases ha : a.isDigit = true
      · simp [leadingDigits, ha] at hc
        rcases hc with h | h
        · exact h ▸ ha
        · exact ih c h
      · simp [leadingDigits, ha] at hc

theorem leadingDigits_append_gmail (d : List Char)
    (hd : ∀ c ∈ d, c.isDigit = true) :
    leadingDigits (d ++ "@gmail.com".data) = (d, "@gmail.com".data) := by
  induction d with
  | nil => decide
  | cons a as ih =>
      have ha : a.isDigit = true := hd a (by simp)
      have ih' := ih (fun c hc => hd c (by simp [hc]))
      simp [leadingDigits, ha, ih']

theorem extract_of_temp (s : String) (h : isTemporaryEmail s = true) :
    extractMemberIdFromTempEmail s =
      some (String.mk (leadingDigits s.data).1) := by
  unfold isTemporaryEmail at h
  unfold extractMemberIdFromTempEmail
  rw [if_pos h]

theorem regex_ne_empty {s : String} (h : testEmailRegex s = true) :
    ¬ s = "" := by
  intro he
  subst he
  exact absurd h (by decide)

theorem head_append (l1 l2 : List Char) (c : Char) (h : l1.head? = some c) :
    (l1 ++ l2).head? = some c := by
  cases l1 with
  | nil => simp at h
  | cons a as => simp_all

theorem appended_ne (pre mid suf other : String) (c1 c2 : Char)
    (h1 : pre.data.head? = some c1) (h2 : other.data.head? = some c2)
    (hne : ¬ c1 = c2) : ¬ (pre ++ mid ++ suf = other) := by
  intro h
  have hd : (pre ++ mid ++ suf).data = other.data := by rw [h]
  rw [String.data_append, String.data_append] at hd
  have hh := head_append (pre.data ++ mid.data) suf.data c1
    (head_append pre.data mid.data c1 h1)
  rw [hd, h2] at hh
  exact hne (Option.some.inj hh.symm)

theorem run_temp_ok (memberEmail memberId newEmail : String) (env : Env)
    (h1 : ¬ newEmail = "") (h2 : ¬ newEmail = memberEmail)
    (h3 : testEmailRegex newEmail = true)
    (h4 : isTemporaryEmail memberEmail = true)
    (h5 : env.dbUpdate = CallResult.ok) :
    handleEmailUpdate memberEmail memberId newEmail env =
      ⟨[Call.dbMembersUpdate memberId newEmail,
        Call.resetPasswordForEmail newEmail],
       [⟨"Email Updated Successfully",
         "Your email has been updated to " ++ newEmail ++
           ". A password setup email has been sent to your new address. Please check your inbox and follow the instructions to complete the setup.",
         false⟩],
       ["idle", "pending"], [""], [newEmail]⟩ := by
  unfold handleEmailUpdate
  rw [if_neg (fun h => h.elim h1 h2), if_neg (by simp [h3]), if_pos h4,
    extract_of_temp memberEmail h4, h5]

theorem run_temp_err (memberEmail memberId newEmail m : String) (env : Env)
    (h1 : ¬ newEmail = "") (h2 : ¬ newEmail = memberEmail)
    (h3 : testEmailRegex newEmail = true)
    (h4 : isTemporaryEmail memberEmail = true)
    (h5 : env.dbUpdate = CallResult.err m) :
    handleEmailUpdate memberEmail memberId newEmail env =
      ⟨[Call.dbMembersUpdate memberId newEmail],
       [⟨"Error", tempErrMessage "Failed to update email in database", true⟩],
       ["idle", "error"], [], []⟩ := by
  unfold handleEmailUpdate
  rw [if_neg (fun h => h.elim h1 h2), if_neg (by simp [h3]), if_pos h4,
    extract_of_temp memberEmail h4, h5]

theorem run_reg_ok (memberEmail memberId newEmail : String) (env : Env)
    (h1 : ¬ newEmail = "") (h2 : ¬ newEmail = memberEmail)
    (h3 : testEmailRegex newEmail = true)
    (h4 : isTemporaryEmail memberEmail = false)
    (h5 : env.authUpdateEmail = CallResult.ok) :
    handleEmailUpdate memberEmail memberId newEmail env =
      ⟨[Call.authUpdateEmail newEmail],
       [⟨"Verification Email Sent",
         "A verification email has been sent to " ++ newEmail ++
           ". Please check your inbox and click the verification link to confirm your new email address.",
         false⟩],
       ["idle", "pending"], [""], []⟩ := by
  unfold handleEmailUpdate
  rw [if_neg (fun h => h.elim h1 h2), if_neg (by simp [h3]),
    if_neg (by simp [h4]), h5]

theorem run_reg_err (memberEmail memberId newEmail msg : String) (env : Env)
    (h1 : ¬ newEmail = "") (h2 : ¬ newEmail = memberEmail)
    (h3 : testEmailRegex newEmail = true)
    (h4 : isTemporaryEmail memberEmail = false)
    (h5 : env.authUpdateEmail = CallResult.err msg) :
    handleEmailUpdate memberEmail memberId newEmail env =
      ⟨[Call.authUpdateEmail newEmail],
       [⟨"Error", regularErrMessage msg, true⟩],
       ["idle", "error"], [], []⟩ := by
  unfold handleEmailUpdate
  rw [if_neg (fun h => h.elim h1 h2), if_neg (by simp [h3]),
    if_neg (by simp [h4]), h5]

theorem temp_toast_shape (memberEmail memberId newEmail : String) (env : Env)
    (htemp : isTemporaryEmail memberEmail = true) :
    ∀ t ∈ (handleEmailUpdate memberEmail memberId newEmail env).toasts,
      t.description = "Please enter a new email address" ∨
      t.description = "Please enter a valid email address" ∨
      t.description = "Database update failed. Please contact support." ∨
      t.description = "Your email has been updated to " ++ newEmail ++
        ". A password setup email has been sent to your new address. Please check your inbox and follow the instructions to complete the setup." := by
  intro t ht
  by_cases h1 : newEmail = "" ∨ newEmail = memberEmail
  · unfold handleEmailUpdate at ht
    rw [if_pos h1] at ht
    simp at ht
    rw [ht]
    exact Or.inl rfl
  · have h1a : ¬ newEmail = "" := fun h => h1 (Or.inl h)
    have h1b : ¬ newEmail = memberEmail := fun h => h1 (Or.inr h)
    by_cases h3 : testEmailRegex newEmail = true
    · cases hdb : env.dbUpdate with
      | ok =>
          rw [run_temp_ok memberEmail memberId newEmail env h1a h1b h3 htemp
            hdb] at ht
          simp at ht
          rw [ht]
          exact Or.inr (Or.inr (Or.inr rfl))
      | err m =>
          rw [run_temp_err memberEmail memberId newEmail m env h1a h1b h3
            htemp hdb] at ht
          simp at ht
          rw [ht]
          exact Or.inr (Or.inr (Or.inl (by decide)))
    · have h3' : testEmailRegex newEmail = false := by
        revert h3; cases testEmailRegex newEmail <;> simp
      unfold handleEmailUpdate at ht
      rw [if_neg h1, if_pos h3'] at ht
      simp at ht
      rw [ht]
      exact Or.inr (Or.inl rfl)

/-- C1: for a member whose current email matches `^\d+@gmail\.com$` and any
syntactically valid, different new email, `handleEmailUpdate` takes the
temporary-email path — it calls `db.members.update(member.id, {email:
newEmail})` and never `auth.updateEmail`; for a member whose current email
does not match the pattern it calls `auth.updateEmail(newEmail)` and never
`db.members.update`. -/
theorem emailUpdate_branch_selection (memberEmail memberId newEmail : String)
    (env : Env) (hdiff : ¬ newEmail = memberEmail)
    (hvalid : testEmailRegex newEmail = true) :
    (isTemporaryEmail memberEmail = true →
      Call.dbMembersUpdate memberId newEmail ∈
          (handleEmailUpdate memberEmail memberId newEmail env).calls ∧
        ∀ e, Call.authUpdateEmail e ∉
          (handleEmailUpdate memberEmail memberId newEmail env).calls) ∧
    (isTemporaryEmail memberEmail = false →
      Call.authUpdateEmail newEmail ∈
          (handleEmailUpdate memberEmail memberId newEmail env).calls ∧
        ∀ i e, Call.dbMembersUpdate i e ∉
          (handleEmailUpdate memberEmail memberId newEmail env).calls) := by
  have hne : ¬ newEmail = "" := regex_ne_empty hvalid
  constructor
  · intro htemp
    cases hdb : env.dbUpdate with
    | ok =>
        rw [run_temp_ok memberEmail memberId newEmail env hne hdiff hvalid
          htemp hdb]
        exact ⟨by simp, by simp⟩
    | err m =>
        rw [run_temp_err memberEmail memberId newEmail m env hne hdiff hvalid
          htemp hdb]
        exact ⟨by simp, by simp⟩
  · intro hreg
    cases hau : env.authUpdateEmail with
    | ok =>
        rw [run_reg_ok memberEmail memberId newEmail env hne hdiff hvalid
          hreg hau]
        exact ⟨by simp, by simp⟩
    | err m =>
        rw [run_reg_err memberEmail memberId newEmail m env hne hdiff hvalid
          hreg hau]
        exact ⟨by simp, by simp⟩

theorem emailUpdate_branch_selection_witness :
    Call.dbMembersUpdate "m1" "john@real.com" ∈
      (handleEmailUpdate "123@gmail.com" "m1" "john@real.com"
        ⟨CallResult.ok, CallResult.ok, CallResult.ok, CallResult.ok⟩).calls :=
  (emailUpdate_branch_selection "123@gmail.com" "m1" "john@real.com"
    ⟨CallResult.ok, CallResult.ok, CallResult.ok, CallResult.ok⟩
    (by decide) (by decide)).1 (by decide) |>.1

/-- C2: the new-email input `"test@test.com"` passes the raw email regex
(the own raw check of `handleEmailUpdate`), yet `validateEmailFormat` marks it
invalid with message `"Please use your real email address"` (its first
matching invalid pattern is `/^test@/`), and an `emailValidation` whose
`isValid` is `false` disables the update button regardless of the loading
flag or input text, so no update call can be issued for that input. -/
theorem testInput_rejected_by_validation :
    validateEmailFormat "test@test.com" =
      some ⟨false, "Please use your real email address"⟩ ∧
    (∀ (loading : Bool) (typed : String) (v : EmailValidation),
      v.isValid = false → updateButtonDisabled loading typed (some v) = true) ∧
    testEmailRegex "test@test.com" = true := by
  refine ⟨by decide, ?_, by decide⟩
  intro loading typed v hv
  simp [updateButtonDisabled, hv]

theorem testInput_rejected_by_validation_witness :
    updateButtonDisabled false "test@test.com"
      (some ⟨false, "Please use your real email address"⟩) = true :=
  testInput_rejected_by_validation.2.1 false "test@test.com"
    ⟨false, "Please use your real email address"⟩ rfl

/-- C3: `isTemporaryEmail` returns `true` exactly for strings made of one
or more digits immediately followed by `"@gmail.com"`, and `false` for
every other string; in particular a real gmail address with a non-digit
in its local part, such as `"john.doe@gmail.com"`, is not temporary. -/
theorem isTemporaryEmail_iff_digits_gmail (s : String) :
    (isTemporaryEmail s = true ↔
      ∃ d : List Char, d ≠ [] ∧ (∀ c ∈ d, c.isDigit = true) ∧
        s.data = d ++ "@gmail.com".data) ∧
    isTemporaryEmail "john.doe@gmail.com" = false := by
  refine ⟨⟨?_, ?_⟩, by decide⟩
  · intro h
    unfold isTemporaryEmail at h
    simp only [Bool.and_eq_true, Bool.not_eq_true', beq_iff_eq] at h
    obtain ⟨h1, h2⟩ := h
    refine ⟨(leadingDigits s.data).1, ?_, leadingDigits_digits s.data, ?_⟩
    · intro hnil
      rw [hnil] at h1
      exact absurd h1 (by decide)
    · have ha := leadingDigits_append s.data
      rw [h2] at ha
      exact ha.symm
  · rintro ⟨d, hnil, hdig, heq⟩
    unfold isTemporaryEmail
    rw [heq, leadingDigits_append_gmail d hdig]
    cases d with
    | nil => exact absurd rfl hnil
    | cons a as => simp

/-- C4: for a member with a non-temporary current email, when the provider
call `auth.updateEmail` fails, the destructive toast message is chosen by
substring matching on `error.message` in the fixed source order:
`invalid`, then `already exists`/`taken`, then `rate limit`, then
`network`/`connection`, then a non-empty message verbatim, else the
default `"Failed to update email. Please try again."`. -/
theorem regular_error_toast_classification
    (memberEmail memberId newEmail msg : String) (env : Env)
    (htemp : isTemporaryEmail memberEmail = false)
    (hdiff : ¬ newEmail = memberEmail)
    (hvalid : testEmailRegex newEmail = true)
    (herr : env.authUpdateEmail = CallResult.err msg) :
    (handleEmailUpdate memberEmail memberId newEmail env).toasts =
      [⟨"Error",
        if strContains msg "invalid" then
          "The email address format is not accepted. Please use a different email address."
        else if strContains msg "already exists" || strContains msg "taken" then
          "This email address is already in use. Please choose a different email."
        else if strContains msg "rate limit" then
          "Too many requests. Please wait a few minutes before trying again."
        else if strContains msg "network" || strContains msg "connection" then
          "Network error. Please check your connection and try again."
        else if msg ≠ "" then msg
        else "Failed to update email. Please try again.",
        true⟩] := by
  rw [run_reg_err memberEmail memberId newEmail msg env
    (regex_ne_empty hvalid) hdiff hvalid htemp herr]
  rfl

theorem regular_error_toast_classification_witness :
    (handleEmailUpdate "a@b.com" "m1" "john@real.com"
      ⟨CallResult.ok, CallResult.err "rate limit exceeded", CallResult.ok,
        CallResult.ok⟩).toasts =
      [⟨"Error",
        "Too many requests. Please wait a few minutes before trying again.",
        true⟩] :=
  (regular_error_toast_classification "a@b.com" "m1" "john@real.com"
    "rate limit exceeded"
    ⟨CallResult.ok, CallResult.err "rate limit exceeded", CallResult.ok,
      CallResult.ok⟩
    (by decide) (by decide) (by decide) rfl).trans (by decide)

/-- C5: for a member with a temporary current email, when the try block of
`handleEmailUpdate` throws, the toast message is chosen by substring
matching on `error.message` in the fixed source order: `extract member
ID`, then `database`, then `already exists`/`taken`, else the
fallback; in particular a database failure throws the fixed message
`Failed to update email in database`, whose classification yields
`"Database update failed. Please contact support."`. -/
theorem temp_error_toast_classification
    (memberEmail memberId newEmail m : String) (env : Env)
    (htemp : isTemporaryEmail memberEmail = true)
    (hdiff : ¬ newEmail = memberEmail)
    (hvalid : testEmailRegex newEmail = true)
    (hdb : env.dbUpdate = CallResult.err m) :
    (∀ msg, tempErrMessage msg =
      (if strContains msg "extract member ID" then
        "Could not process temporary email. Please contact support."
      else if strContains msg "database" then
        "Database update failed. Please contact support."
      else if strContains msg "already exists" || strContains msg "taken" then
        "This email address is already in use. Please choose a different email."
      else
        "Failed to update temporary email. Please contact support if the issue persists.")) ∧
    (handleEmailUpdate memberEmail memberId newEmail env).toasts =
      [⟨"Error", tempErrMessage "Failed to update email in database", true⟩] ∧
    tempErrMessage "Failed to update email in database" =
      "Database update failed. Please contact support." := by
  refine ⟨fun msg => rfl, ?_, by decide⟩
  rw [run_temp_err memberEmail memberId newEmail m env
    (regex_ne_empty hvalid) hdiff hvalid htemp hdb]

theorem temp_error_toast_classification_witness :
    (handleEmailUpdate "77@gmail.com" "m1" "john@real.com"
      ⟨CallResult.err "duplicate key", CallResult.ok, CallResult.ok,
        CallResult.ok⟩).toasts =
      [⟨"Error", "Database update failed. Please contact support.", true⟩] :=
  ((temp_error_toast_classification "77@gmail.com" "m1" "john@real.com"
    "duplicate key"
    ⟨CallResult.err "duplicate key", CallResult.ok, CallResult.ok,
      CallResult.ok⟩
    (by decide) (by decide) (by decide) rfl).2.1).trans (by decide)

/-- C6: `handlePasswordReset` calls `auth.resetPassword(member.email)`
exactly when `member.email` is non-empty; an empty email yields the
destructive toast `"No email address found for your account"` with no
provider call; a provider error is classified by substring: `rate limit`,
then `not found`/`invalid`, then a non-empty message verbatim, else the
default `"Failed to send password reset email. Please try again."`. -/
theorem passwordReset_behavior (e msg : String) (env : Env) :
    (handlePasswordReset "" env).calls = [] ∧
    (handlePasswordReset "" env).toasts =
      [⟨"Error", "No email address found for your account", true⟩] ∧
    (¬ e = "" →
      (handlePasswordReset e env).calls = [Call.authResetPassword e]) ∧
    (¬ e = "" → env.resetPassword = CallResult.err msg →
      (handlePasswordReset e env).toasts =
        [⟨"Error",
          if strContains msg "rate limit" then
            "Too many requests. Please wait a few minutes before trying again."
          else if strContains msg "not found" || strContains msg "invalid" then
            "Email address not found. Please contact support."
          else if msg ≠ "" then msg
          else "Failed to send password reset email. Please try again.",
          true⟩]) := by
  refine ⟨rfl, rfl, ?_, ?_⟩
  · intro he
    unfold handlePasswordReset
    rw [if_neg he]
    cases env.resetPassword <;> rfl
  · intro he herr
    unfold handlePasswordReset
    rw [if_neg he, herr]
    rfl

theorem passwordReset_behavior_witness :
    (handlePasswordReset "a@b.com"
      ⟨CallResult.ok, CallResult.ok, CallResult.ok,
        CallResult.err "user not found"⟩).toasts =
      [⟨"Error", "Email address not found. Please contact support.", true⟩] :=
  ((passwordReset_behavior "a@b.com" "user not found"
    ⟨CallResult.ok, CallResult.ok, CallResult.ok,
      CallResult.err "user not found"⟩).2.2.2 (by decide) rfl).trans
    (by decide)

/-- C7: `handleEmailUpdate` validates before any provider call: whenever
`newEmail` is empty or equal to the current email of the member, or fails the
email regex, it shows a single destructive toast (`"Please enter a new
email address"` in the first case, `"Please enter a valid email address"`
in the second) and returns with no SDK call and no change to
`emailUpdateStatus` or `newEmail`. -/
theorem emailUpdate_validation_guard (memberEmail memberId newEmail : String)
    (env : Env)
    (h : newEmail = "" ∨ newEmail = memberEmail ∨
      testEmailRegex newEmail = false) :
    (handleEmailUpdate memberEmail memberId newEmail env).calls = [] ∧
    (handleEmailUpdate memberEmail memberId newEmail env).statusSet = [] ∧
    (handleEmailUpdate memberEmail memberId newEmail env).newEmailSet = [] ∧
    (handleEmailUpdate memberEmail memberId newEmail env).toasts =
      [⟨"Error",
        if newEmail = "" ∨ newEmail = memberEmail then
          "Please enter a new email address"
        else "Please enter a valid email address",
        true⟩] := by
  by_cases h1 : newEmail = "" ∨ newEmail = memberEmail
  · unfold handleEmailUpdate
    rw [if_pos h1]
    exact ⟨rfl, rfl, rfl, by rw [if_pos h1]⟩
  · have h3 : testEmailRegex newEmail = false := by
      rcases h with h | h | h
      · exact absurd (Or.inl h) h1
      · exact absurd (Or.inr h) h1
      · exact h
    unfold handleEmailUpdate
    rw [if_neg h1, if_pos h3]
    exact ⟨rfl, rfl, rfl, by rw [if_neg h1]⟩

theorem emailUpdate_validation_guard_witness :
    (handleEmailUpdate "a@b.com" "m1" "not-an-email"
      ⟨CallResult.ok, CallResult.ok, CallResult.ok, CallResult.ok⟩).calls =
        [] ∧
    (handleEmailUpdate "a@b.com" "m1" "not-an-email"
      ⟨CallResult.ok, CallResult.ok, CallResult.ok, CallResult.ok⟩).toasts =
      [⟨"Error", "Please enter a valid email address", true⟩] := by
  have h := emailUpdate_validation_guard "a@b.com" "m1" "not-an-email"
    ⟨CallResult.ok, CallResult.ok, CallResult.ok, CallResult.ok⟩
    (Or.inr (Or.inr (by decide)))
  exact ⟨h.1, h.2.2.2.trans (by decide)⟩

/-- C8: `isTemporaryEmail s` is `true` exactly when
`extractMemberIdFromTempEmail s` is non-null, and the extracted value is
the digit prefix of `s`; consequently, for a member whose current email is
temporary, the branch that throws `Could not extract member ID from
temporary email` is unreachable: its toast
`"Could not process temporary email. Please contact support."` never
appears. -/
theorem extract_iff_temporary (s memberEmail memberId newEmail : String)
    (env : Env) :
    (isTemporaryEmail s = true ↔
      (extractMemberIdFromTempEmail s).isSome = true) ∧
    (∀ d, extractMemberIdFromTempEmail s = some d →
      d.data ≠ [] ∧ (∀ c ∈ d.data, c.isDigit = true) ∧
        s.data = d.data ++ "@gmail.com".data) ∧
    (isTemporaryEmail memberEmail = true →
      ∀ t ∈ (handleEmailUpdate memberEmail memberId newEmail env).toasts,
        ¬ t.description =
          "Could not process temporary email. Please contact support.") := by
  refine ⟨?_, ?_, ?_⟩
  · unfold isTemporaryEmail extractMemberIdFromTempEmail
    cases hb : (!(leadingDigits s.data).1.isEmpty &&
        ((leadingDigits s.data).2 == "@gmail.com".data)) with
    | true => simp [hb]
    | false => simp [hb]
  · intro d hd
    unfold extractMemberIdFromTempEmail at hd
    by_cases hb : (!(leadingDigits s.data).1.isEmpty &&
        ((leadingDigits s.data).2 == "@gmail.com".data)) = true
    · rw [if_pos hb] at hd
      simp only [Bool.and_eq_true, Bool.not_eq_true', beq_iff_eq] at hb
      obtain ⟨hb1, hb2⟩ := hb
      have hd' : d = String.mk (leadingDigits s.data).1 :=
        (Option.some.inj hd).symm
      subst hd'
      refine ⟨?_, leadingDigits_digits s.data, ?_⟩
      · intro hnil
        have hnil' : (leadingDigits s.data).1 = [] := hnil
        rw [hnil'] at hb1
        exact absurd hb1 (by decide)
      · have ha := leadingDigits_append s.data
        rw [hb2] at ha
        exact ha.symm
    · rw [if_neg hb] at hd
      exact absurd hd (by simp)
  · intro htemp t ht hdesc
    rcases temp_toast_shape memberEmail memberId newEmail env htemp t ht with
      h | h | h | h
    · rw [h] at hdesc
      exact absurd hdesc (by decide)
    · rw [h] at hdesc
      exact absurd hdesc (by decide)
    · rw [h] at hdesc
      exact absurd hdesc (by decide)
    · rw [h] at hdesc
      exact appended_ne "Your email has been updated to " newEmail
        ". A password setup email has been sent to your new address. Please check your inbox and follow the instructions to complete the setup."
        "Could not process temporary email. Please contact support."
        'Y' 'C' (by decide) (by decide) (by decide) hdesc

theorem extract_iff_temporary_witness :
    ¬ (Toast.mk "Error" "Database update failed. Please contact support."
        true).description =
      "Could not process temporary email. Please contact support." :=
  (extract_iff_temporary "5@gmail.com" "5@gmail.com" "m1" "john@real.com"
    ⟨CallResult.err "boom", CallResult.ok, CallResult.ok,
      CallResult.ok⟩).2.2 (by decide)
    (Toast.mk "Error" "Database update failed. Please contact support." true)
    (by decide)

/-- C9: in the temporary-email error handler the `already
exists`/`taken` classification is unreachable: every failure of
`db.members.update` is re-thrown as the fixed message `Failed to update
email in database`, which matches the earlier `database` check, so any
database failure — whatever its own message, including a duplicate-email
one — produces the toast `"Database update failed. Please contact
support."`, and the toast `"This email address is already in use. Please
choose a different email."` is never shown on the temporary-email path. -/
theorem temp_db_failure_database_toast
    (memberEmail memberId newEmail m : String) (env : Env)
    (htemp : isTemporaryEmail memberEmail = true)
    (hdiff : ¬ newEmail = memberEmail)
    (hvalid : testEmailRegex newEmail = true)
    (hdb : env.dbUpdate = CallResult.err m) :
    (handleEmailUpdate memberEmail memberId newEmail env).toasts =
      [⟨"Error", "Database update failed. Please contact support.", true⟩] ∧
    ∀ (me mi ne : String) (e : Env), isTemporaryEmail me = true →
      ∀ t ∈ (handleEmailUpdate me mi ne e).toasts,
        ¬ t.description =
          "This email address is already in use. Please choose a different email." := by
  constructor
  · rw [run_temp_err memberEmail memberId newEmail m env
      (regex_ne_empty hvalid) hdiff hvalid htemp hdb]
    rfl
  · intro me mi ne e hme t ht hdesc
    rcases temp_toast_shape me mi ne e hme t ht with h | h | h | h
    · rw [h] at hdesc
      exact absurd hdesc (by decide)
    · rw [h] at hdesc
      exact absurd hdesc (by decide)
    · rw [h] at hdesc
      exact absurd hdesc (by decide)
    · rw [h] at hdesc
      exact appended_ne "Your email has been updated to " ne
        ". A password setup email has been sent to your new address. Please check your inbox and follow the instructions to complete the setup."
        "This email address is already in use. Please choose a different email."
        'Y' 'T' (by decide) (by decide) (by decide) hdesc

theorem temp_db_failure_database_toast_witness :
    (handleEmailUpdate "42@gmail.com" "m1" "john@real.com"
      ⟨CallResult.err "email already exists", CallResult.ok, CallResult.ok,
        CallResult.ok⟩).toasts =
      [⟨"Error", "Database update failed. Please contact support.", true⟩] :=
  (temp_db_failure_database_toast "42@gmail.com" "m1" "john@real.com"
    "email already exists"
    ⟨CallResult.err "email already exists", CallResult.ok, CallResult.ok,
      CallResult.ok⟩
    (by decide) (by decide) (by decide) rfl).1

/-- C10: on the temporary-email path, after `db.members.update` succeeds, a
failure of `supabase.auth.resetPasswordForEmail` is swallowed (logged
only): the run is identical to one where that call succeeds —
`emailUpdateStatus` is still set to `pending` and the success toast
stating a password setup email "has been sent" to the new address is shown
even though no such email was sent. -/
theorem temp_reset_failure_swallowed
    (memberEmail memberId newEmail m : String) (env : Env)
    (htemp : isTemporaryEmail memberEmail = true)
    (hdiff : ¬ newEmail = memberEmail)
    (hvalid : testEmailRegex newEmail = true)
    (hdb : env.dbUpdate = CallResult.ok)
    (_hreset : env.resetForEmail = CallResult.err m) :
    handleEmailUpdate memberEmail memberId newEmail env =
      handleEmailUpdate memberEmail memberId newEmail
        (Env.mk env.dbUpdate env.authUpdateEmail CallResult.ok
          env.resetPassword) ∧
    (handleEmailUpdate memberEmail memberId newEmail env).statusSet =
      ["idle", "pending"] ∧
    Call.resetPasswordForEmail newEmail ∈
      (handleEmailUpdate memberEmail memberId newEmail env).calls ∧
    (handleEmailUpdate memberEmail memberId newEmail env).toasts =
      [⟨"Email Updated Successfully",
        "Your email has been updated to " ++ newEmail ++
          ". A password setup email has been sent to your new address. Please check your inbox and follow the instructions to complete the setup.",
        false⟩] := by
  have h1 := run_temp_ok memberEmail memberId newEmail env
    (regex_ne_empty hvalid) hdiff hvalid htemp hdb
  have h2 := run_temp_ok memberEmail memberId newEmail
    (Env.mk env.dbUpdate env.authUpdateEmail CallResult.ok env.resetPassword)
    (regex_ne_empty hvalid) hdiff hvalid htemp hdb
  rw [h1, h2]
  exact ⟨rfl, rfl, by simp, rfl⟩

theorem temp_reset_failure_swallowed_witness :
    (handleEmailUpdate "9@gmail.com" "m1" "john@real.com"
      ⟨CallResult.ok, CallResult.ok, CallResult.err "smtp down",
        CallResult.ok⟩).statusSet = ["idle", "pending"] :=
  (temp_reset_failure_swallowed "9@gmail.com" "m1" "john@real.com"
    "smtp down"
    ⟨CallResult.ok, CallResult.ok, CallResult.err "smtp down",
      CallResult.ok⟩
    (by decide) (by decide) (by decide) rfl rfl).2.1

example : isTemporaryEmail "12345@gmail.com" = true := by decide
example : isTemporaryEmail "john.doe@gmail.com" = false := by decide
example : extractMemberIdFromTempEmail "12345@gmail.com" = some "12345" := by
  decide
example : testEmailRegex "test@test.com" = true := by decide
example : testEmailRegex "a@b" = false := by decide
example : testEmailRegex "a@b.co" = true := by decide
example : testEmailRegex "" = false := by decide
example : validateEmailFormat "test@test.com" =
    some ⟨false, "Please use your real email address"⟩ := by decide
example : validateEmailFormat "a@test.org" =
    some ⟨false, "Please use a real domain"⟩ := by decide
example : validateEmailFormat "john@company.com" =
    some ⟨true, "Valid email format"⟩ := by decide
